import Mathlib

/-!
# Payslip module: a shallow embedding of the validation, computation and
# persistence engine, with proofs of its specified properties.

The definitions below translate `Backend/server.js` (the Express handlers and
their helper functions) and the SQL schema (`payslips` table) into Lean.
JavaScript numbers are modelled as exact rationals plus an explicit NaN
constructor; absent (`undefined`) request fields are modelled with `Option`.
String lengths are counted in code points (the repository only handles
Basic-Multilingual-Plane text, where this agrees with JavaScript's
UTF-16 code-unit count for the characters involved).
-/

/-! ## Character classes used by the regexes in server.js -/

/-- The regex class `[0-9]` / `\d` (ASCII digits, as in JavaScript regexes). -/
def isDigitCh (c : Char) : Bool := 48 ≤ c.toNat && c.toNat ≤ 57

/-- The regex class `[A-Z]`. -/
def isUpperCh (c : Char) : Bool := 65 ≤ c.toNat && c.toNat ≤ 90

/-- The regex class `[A-Za-z]`. -/
def isAlphaCh (c : Char) : Bool :=
  (65 ≤ c.toNat && c.toNat ≤ 90) || (97 ≤ c.toNat && c.toNat ≤ 122)

/-- JavaScript's whitespace set: the characters matched by the regex class
`\s`, which is also exactly the set removed by `String.prototype.trim`
(ECMAScript WhiteSpace ∪ LineTerminator). -/
def isJsWs (c : Char) : Bool :=
  c.toNat = 9 || c.toNat = 10 || c.toNat = 11 || c.toNat = 12 || c.toNat = 13 ||
  c.toNat = 32 || c.toNat = 160 || c.toNat = 0x1680 ||
  (0x2000 ≤ c.toNat && c.toNat ≤ 0x200a) ||
  c.toNat = 0x2028 || c.toNat = 0x2029 || c.toNat = 0x202f ||
  c.toNat = 0x205f || c.toNat = 0x3000 || c.toNat = 0xfeff

/-- `input.trim()`: remove leading and trailing JavaScript whitespace. -/
def trimChars (l : List Char) : List Char :=
  ((l.dropWhile isJsWs).reverse.dropWhile isJsWs).reverse

/-! ## Field validators (server.js lines 34-63) -/

/-- `validateEmployeeId` (server.js:35-38): the regex `^ATS0(?!000)\d{3}$` —
the fixed prefix `ATS0` followed by exactly three digits that are not the
sequence `000`. -/
def validateEmployeeId (s : String) : Bool :=
  match s.data with
  | ['A', 'T', 'S', '0', d1, d2, d3] =>
    isDigitCh d1 && isDigitCh d2 && isDigitCh d3 &&
      !(d1 = '0' && d2 = '0' && d3 = '0')
  | _ => false

/-- `validatePAN` (server.js:41-44): the regex `^[A-Z]{5}\d{4}[A-Z]$`. -/
def validatePAN (s : String) : Bool :=
  match s.data with
  | [a, b, c, d, e, f, g, h, i, j] =>
    isUpperCh a && isUpperCh b && isUpperCh c && isUpperCh d && isUpperCh e &&
    isDigitCh f && isDigitCh g && isDigitCh h && isDigitCh i && isUpperCh j
  | _ => false

/-- The two-state automaton of the regex `^[A-Za-z]+(?:\s[A-Za-z]+)*$`
(server.js:48).  The Boolean state records whether the last character read
was a letter (accepting); a separator is legal only in that state. -/
def nameDFA : List Char → Bool → Bool
  | [], st => st
  | c :: rest, st =>
    if isAlphaCh c then nameDFA rest true
    else if isJsWs c && st then nameDFA rest false
    else false

/-- `validateAlphabeticWithSpaces` (server.js:47-52): the trimmed input must
have length 5..30 and match `^[A-Za-z]+(?:\s[A-Za-z]+)*$`, and the whole
input must contain at least 5 letters (`input.match(/[A-Za-z]/g).length`). -/
def validateAlphabeticWithSpaces (s : String) : Bool :=
  let trimmedInput := trimChars s.data
  let alphaCount := (s.data.filter isAlphaCh).length
  5 ≤ trimmedInput.length && trimmedInput.length ≤ 30 &&
    nameDFA trimmedInput false && 5 ≤ alphaCount

/-- `validateBankAccount` (server.js:55-58): the trimmed input matches
`^\d{9,16}$`. -/
def validateBankAccount (s : String) : Bool :=
  let t := trimChars s.data
  9 ≤ t.length && t.length ≤ 16 && t.all isDigitCh

/-- `validateComponentName` (server.js:61-63). -/
def validateComponentName (s : String) : Bool :=
  validateAlphabeticWithSpaces s

/-! ## JavaScript numbers and the LOP calculator (server.js lines 65-72) -/

/-- A JavaScript number as far as this program observes it: either NaN or an
exact value (floating-point rounding is not modelled; all arithmetic is
exact). -/
inductive JSNum where
  | nan : JSNum
  | val (q : ℚ) : JSNum
deriving DecidableEq, Repr

/-- `isNaN(x)` for a number argument. -/
def JSNum.isNaN : JSNum → Bool
  | .nan => true
  | .val _ => false

/-- JavaScript truthiness of a number: false for NaN and 0. -/
def JSNum.truthy : JSNum → Bool
  | .nan => false
  | .val q => q ≠ 0

/-- `Math.round`: round to the nearest integer, halves toward positive
infinity. -/
def jsRound (q : ℚ) : ℤ := ⌊q + 1 / 2⌋

/-- `calculateLOPDeduction` (server.js:66-72): returns 0 when any argument is
NaN or `workingDays` is 0; otherwise `Math.round(grossPay / workingDays *
lop * 100) / 100`. -/
def calculateLOPDeduction (grossPay workingDays lop : JSNum) : ℚ :=
  match grossPay, workingDays, lop with
  | .val g, .val w, .val l =>
    if w = 0 then 0
    else
      let dailyRate := g / w
      (jsRound (dailyRate * l * 100) : ℚ) / 100
  | _, _, _ => 0

/-! ## Calendar helpers (server.js lines 330-344), following the ECMAScript
Date internals they rely on.  Lean's `Int` division and remainder are
floor-based for positive divisors, matching ECMAScript `floor` and
`modulo`. -/

/-- ECMAScript DaysInYear(y). -/
def daysInYearJs (y : ℤ) : ℤ :=
  if y % 4 ≠ 0 then 365
  else if y % 100 ≠ 0 then 366
  else if y % 400 ≠ 0 then 365
  else 366

/-- ECMAScript InLeapYear: the year has 366 days. -/
def inLeapYearJs (y : ℤ) : Bool := daysInYearJs y = 366

/-- ECMAScript DayFromYear(y): the day number of January 1 of year `y`. -/
def dayFromYear (y : ℤ) : ℤ :=
  365 * (y - 1970) + (y - 1969) / 4 - (y - 1901) / 100 + (y - 1601) / 400

/-- ECMAScript's cumulative day count before 0-based month `m` in year `y`
(the DayWithinYear table underlying DateFromTime / MakeDay). -/
def dayFromMonth (m : ℕ) (y : ℤ) : ℤ :=
  let base : ℤ :=
    match m with
    | 0 => 0 | 1 => 31 | 2 => 59 | 3 => 90 | 4 => 120 | 5 => 151
    | 6 => 181 | 7 => 212 | 8 => 243 | 9 => 273 | 10 => 304 | _ => 334
  base + (if 2 ≤ m ∧ inLeapYearJs y then 1 else 0)

/-- ECMAScript MakeFullYear, applied by the `Date` constructor to its year
argument: a year in 0..99 is interpreted as 1900 + year. -/
def makeFullYear (y : ℤ) : ℤ :=
  if 0 ≤ y ∧ y ≤ 99 then 1900 + y else y

/-- The MakeDay/getDate part of `new Date(yr, month, 0).getDate()` on a year
`yr` to which MakeFullYear has already been applied, where the 1-based month
number is used as the 0-based index of the following month.  MakeDay
normalises the month as `ym := yr + month / 12`, `mn := month % 12` and
produces the day number `dayFromYear ym + dayFromMonth mn ym + 0 - 1`, the
day before the first of that month; `getDate` then returns that day's
position inside its containing calendar month, which is month `mn - 1` of
`ym` when `mn ≥ 1` and December of `ym - 1` when `mn = 0`. -/
def getDaysInMonthOfYear (yr : ℤ) (month : ℕ) : ℤ :=
  let ym : ℤ := yr + (month / 12 : ℕ)
  let mn : ℕ := month % 12
  let day : ℤ := dayFromYear ym + dayFromMonth mn ym - 1
  if mn = 0 then day - (dayFromYear (ym - 1) + dayFromMonth 11 (ym - 1)) + 1
  else day - (dayFromYear ym + dayFromMonth (mn - 1) ym) + 1

/-- `getDaysInMonth` (server.js:341-344) on an already-split year/month pair:
`new Date(year, month, 0).getDate()`.  The constructor first applies
MakeFullYear to the year argument, so a key year 0..99 denotes 1900..1999. -/
def getDaysInMonth (year : ℤ) (month : ℕ) : ℤ :=
  getDaysInMonthOfYear (makeFullYear year) month

/-- `str.split(sep)` for a one-character separator, on code points. -/
def splitOnCh (sep : Char) (l : List Char) : List (List Char) :=
  match l with
  | [] => [[]]
  | c :: rest =>
    let r := splitOnCh sep rest
    if c = sep then [] :: r
    else match r with
      | [] => [[c]]
      | w :: ws => (c :: w) :: ws

/-- The numeric value of a non-empty digit string. -/
def natFromDigits (l : List Char) : ℕ :=
  l.foldl (fun n c => 10 * n + (c.toNat - 48)) 0

/-- JavaScript `Number(s)` restricted to the non-empty all-digit strings this
program feeds it (the components of a schema-shaped `YYYY-MM` key); `none`
stands for NaN. -/
def jsNumberOfString (l : List Char) : Option ℕ :=
  if l ≠ [] ∧ l.all isDigitCh then some (natFromDigits l) else none

/-- `getDaysInMonth` (server.js:341-344) as called, on the stored string:
`monthYear.split('-').map(Number)` destructured into year and month, then
`new Date(year, month, 0).getDate()`.  `none` stands for a NaN result. -/
def getDaysInMonthStr (monthYear : String) : Option ℤ :=
  match splitOnCh '-' monthYear.data with
  | y :: m :: _ =>
    match jsNumberOfString y, jsNumberOfString m with
    | some yn, some mn => some (getDaysInMonth yn mn)
    | _, _ => none
  | _ => none

/-- The fixed month-name table of `formatMonthYear` (server.js:335-336). -/
def monthNames : List String :=
  ["January", "February", "March", "April", "May", "June",
   "July", "August", "September", "October", "November", "December"]

/-- `parseInt(s)` restricted to the digit-led strings this program feeds it:
the value of the leading digit run, NaN (`none`) when there is none. -/
def jsParseInt (l : List Char) : Option ℕ :=
  let digits := l.takeWhile isDigitCh
  if digits = [] then none else some (natFromDigits digits)

/-- `formatMonthYear` (server.js:331-338): split the key on `-`, build
`new Date(year, parseInt(month) - 1)` and render `monthNames[getMonth()]`
followed by the year text.  `getMonth` of that date is the month index
normalised into 0..11 (ECMAScript MakeDay month overflow), and indexing the
table with NaN yields `undefined`. -/
def formatMonthYear (monthYear : String) : String :=
  if monthYear.isEmpty then ""
  else
    match splitOnCh '-' monthYear.data with
    | y :: m :: _ =>
      match jsParseInt m with
      | some mn =>
        let idx : ℤ := ((mn : ℤ) - 1) % 12
        (monthNames.getD idx.toNat "undefined") ++ " " ++ String.mk y
      | none => "undefined " ++ String.mk y
    | [y] => "undefined " ++ String.mk y
    | [] => "undefined "

/-! ## Data model: the `payslips` table and the request payloads -/

/-- One `{component, amount}` element of the earnings/deductions arrays. -/
structure LineItem where
  component : String
  amount : JSNum
deriving DecidableEq, Repr

/-- One row of the `payslips` table, with the columns of the schema.  The
`created_at` column holds the ISO string the handler inserts; JSON columns
hold the line-item lists verbatim. -/
structure Payslip where
  id : ℕ
  employee_id : String
  employee_name : Option String
  designation : Option String
  date_joining : Option String
  month_year : String
  employee_type : Option String
  location : Option String
  bank_name : Option String
  account_no : Option String
  working_days : Option ℚ
  lop : ℚ
  pan : Option String
  duration : Option String
  earnings : List LineItem
  deductions : List LineItem
  gross_pay : Option JSNum
  total_deductions : Option JSNum
  net_pay : Option JSNum
  provident_fund : Option String
  uan : Option String
  esic : Option String
  created_at : String
deriving DecidableEq, Repr

/-- The storage state: the table rows in insertion order, plus the SERIAL
sequence for `id`. -/
structure DBState where
  rows : List Payslip
  nextId : ℕ
deriving DecidableEq, Repr

/-- The body of `POST /api/payslips` as destructured by the handler
(server.js:80-84); `none` is an absent (`undefined`) field. -/
structure CreateRequest where
  employeeId : Option String
  employeeName : Option String
  designation : Option String
  dateJoining : Option String
  monthYear : Option String
  employeeType : Option String
  location : Option String
  bankName : Option String
  accountNo : Option String
  workingDays : Option JSNum
  lop : Option JSNum
  pan : Option String
  duration : Option String
  earnings : Option (List LineItem)
  deductions : Option (List LineItem)
  grossPay : Option JSNum
  totalDeductions : Option JSNum
  netPay : Option JSNum
  providentFund : Option String
  uan : Option String
  esic : Option String
deriving DecidableEq, Repr

/-- JavaScript truthiness of a possibly-absent string: `undefined` and the
empty string are falsy. -/
def strTruthy : Option String → Bool
  | none => false
  | some s => !s.isEmpty

/-- JavaScript truthiness of a possibly-absent number. -/
def numTruthy : Option JSNum → Bool
  | none => false
  | some n => n.truthy

/-- `isNaN(x)` on a possibly-absent number: `isNaN(undefined)` is true. -/
def optIsNaN : Option JSNum → Bool
  | none => true
  | some n => n.isNaN

/-- `x < 0` on a possibly-absent number (false for NaN/undefined, as any
comparison with NaN is false in JavaScript). -/
def numLtZero : Option JSNum → Bool
  | some (.val q) => q < 0
  | _ => false

/-- `x > 31` on a possibly-absent number. -/
def numGt31 : Option JSNum → Bool
  | some (.val q) => 31 < q
  | _ => false

/-! ## The create pipeline (`POST /api/payslips`, server.js:77-185) -/

/-- The response of the create handler: a 400 with its message, a 201 with
the assigned id, or the catch-all 500. -/
inductive CreateResult where
  | badRequest (msg : String) : CreateResult
  | created (id : ℕ) : CreateResult
  | internalError : CreateResult
deriving DecidableEq, Repr

/-- The scalar-field validations of the create handler, in source order
(server.js:87-125), returning the first rejection message. -/
def fieldChecks (req : CreateRequest) : Option String :=
  if !strTruthy req.employeeId || !strTruthy req.monthYear then
    some "Employee ID and Month/Year are required"
  else if !validateEmployeeId (req.employeeId.getD "") then
    some "Invalid Employee ID format (e.g., ATS0123)"
  else if strTruthy req.employeeName &&
      !validateAlphabeticWithSpaces (req.employeeName.getD "") then
    some "Invalid Employee Name (min 5 letters, max 30)"
  else if strTruthy req.designation &&
      !validateAlphabeticWithSpaces (req.designation.getD "") then
    some "Invalid Designation (min 5 letters, max 30)"
  else if strTruthy req.location &&
      !validateAlphabeticWithSpaces (req.location.getD "") then
    some "Invalid Location (min 5 letters, max 30)"
  else if strTruthy req.bankName &&
      !validateAlphabeticWithSpaces (req.bankName.getD "") then
    some "Invalid Bank Name (min 5 letters, max 30)"
  else if strTruthy req.pan && !validatePAN (req.pan.getD "") then
    some "Invalid PAN format (e.g., ABCDE1234F)"
  else if strTruthy req.accountNo && !validateBankAccount (req.accountNo.getD "") then
    some "Invalid Bank Account Number (9-16 digits)"
  else if numTruthy req.workingDays &&
      (optIsNaN req.workingDays || numLtZero req.workingDays || numGt31 req.workingDays) then
    some "Working Days must be between 0 and 31"
  else if numTruthy req.lop &&
      (optIsNaN req.lop || numLtZero req.lop || numGt31 req.lop) then
    some "LOP must be between 0 and 31"
  else none

/-- The earnings/deductions loop bodies (server.js:132-148): first rejection
for an invalid component name or a NaN/negative amount, `kind` being the word
used in the message. -/
def itemsCheck (kind : String) : List LineItem → Option String
  | [] => none
  | it :: rest =>
    if !validateComponentName it.component then
      some ("Invalid " ++ kind ++ " component name: " ++ it.component)
    else if it.amount.isNaN || (match it.amount with | .val q => q < 0 | .nan => false) then
      some ("Invalid " ++ kind ++ " amount for " ++ it.component)
    else itemsCheck kind rest

/-- Outcome of everything before the duplicate check: a 400 rejection, the
uncaught TypeError of iterating an absent `deductions` (server.js:141), or
success. -/
inductive Precheck where
  | reject (msg : String) : Precheck
  | thrown : Precheck
  | ok : Precheck
deriving DecidableEq, Repr

/-- The full validation prefix of the create handler (server.js:87-148):
scalar fields, then `!earnings || earnings.length === 0`, then the two
`for...of` loops.  `for (const deduction of deductions)` with `deductions`
absent throws, which the surrounding `try` turns into the 500 response. -/
def precheck (req : CreateRequest) : Precheck :=
  match fieldChecks req with
  | some m => .reject m
  | none =>
    match req.earnings with
    | none => .reject "At least one earning is required"
    | some es =>
      if es.length = 0 then .reject "At least one earning is required"
      else
        match itemsCheck "earning" es with
        | some m => .reject m
        | none =>
          match req.deductions with
          | none => .thrown
          | some ds =>
            match itemsCheck "deduction" ds with
            | some m => .reject m
            | none => .ok

/-- The `||` coalescing of the insert values (server.js:170-177) for string
fields: a falsy value is stored as NULL. -/
def orNullStr (o : Option String) : Option String :=
  if strTruthy o then o else none

/-- `workingDays || null`: a falsy number (absent, NaN or 0) becomes NULL. -/
def orNullNum (o : Option JSNum) : Option ℚ :=
  match o with
  | some (.val q) => if q = 0 then none else some q
  | _ => none

/-- `lop || 0`: a falsy number becomes 0. -/
def orZeroNum (o : Option JSNum) : ℚ :=
  match o with
  | some (.val q) => q
  | _ => 0

/-- The row the INSERT statement builds (server.js:161-177). -/
def buildRow (req : CreateRequest) (now : String) (newId : ℕ) : Payslip :=
  { id := newId
    employee_id := req.employeeId.getD ""
    employee_name := orNullStr req.employeeName
    designation := orNullStr req.designation
    date_joining := orNullStr req.dateJoining
    month_year := req.monthYear.getD ""
    employee_type := orNullStr req.employeeType
    location := orNullStr req.location
    bank_name := orNullStr req.bankName
    account_no := orNullStr req.accountNo
    working_days := orNullNum req.workingDays
    lop := orZeroNum req.lop
    pan := orNullStr req.pan
    duration := orNullStr req.duration
    earnings := req.earnings.getD []
    deductions := req.deductions.getD []
    gross_pay := req.grossPay
    total_deductions := req.totalDeductions
    net_pay := req.netPay
    provident_fund := orNullStr req.providentFund
    uan := orNullStr req.uan
    esic := orNullStr req.esic
    created_at := now }

/-- The schema shape `^\d{4}-\d{2}$` of the `month_year` CHECK constraint
(schema line 7). -/
def monthYearShape (s : String) : Bool :=
  match s.data with
  | [a, b, c, d, '-', e, f] =>
    isDigitCh a && isDigitCh b && isDigitCh c && isDigitCh d &&
      isDigitCh e && isDigitCh f
  | _ => false

/-- A CHECK constraint on a nullable column: NULL always passes. -/
def optCheck (p : String → Bool) : Option String → Bool
  | none => true
  | some s => p s

/-- The CHECK and NOT NULL constraints of the `payslips` schema that bear on
a built row (the `date_joining` range check involves the database's
CURRENT_DATE and is not modelled; the rows used in the theorems below leave
that column NULL, where the check passes vacuously). -/
def rowOk (r : Payslip) : Bool :=
  validateEmployeeId r.employee_id &&
  monthYearShape r.month_year &&
  optCheck (fun s => s.length ≤ 30) r.employee_name &&
  optCheck (fun s => s.length ≤ 30) r.designation &&
  optCheck (fun s => s = "Permanent" || s = "Contract" || s = "Temporary")
    r.employee_type &&
  optCheck (fun s => s.length ≤ 30) r.location &&
  optCheck (fun s => s.length ≤ 30) r.bank_name &&
  optCheck (fun s => s.length ≤ 16 &&
    (9 ≤ s.data.length && s.data.length ≤ 16 && s.data.all isDigitCh)) r.account_no &&
  (match r.working_days with | none => true | some q => 0 ≤ q && q ≤ 31) &&
  (0 ≤ r.lop && r.lop ≤ 31) &&
  optCheck validatePAN r.pan &&
  optCheck (fun s => s.length ≤ 100) r.duration &&
  (match r.gross_pay with | some (.val q) => 0 ≤ q | _ => false) &&
  (match r.total_deductions with | some (.val q) => 0 ≤ q | _ => false) &&
  (match r.net_pay with | some (.val q) => 0 ≤ q | _ => false) &&
  optCheck (fun s => s.length ≤ 20) r.provident_fund &&
  optCheck (fun s => s.length ≤ 20) r.uan &&
  optCheck (fun s => s.length ≤ 20) r.esic

/-- The duplicate pre-check's WHERE clause (server.js:151-154). -/
def pairMatches (eid my : String) (r : Payslip) : Bool :=
  r.employee_id = eid && r.month_year = my

/-- `POST /api/payslips` (server.js:77-185): validation prefix, duplicate
pre-check, INSERT.  A storage-level rejection of the insert (a CHECK
constraint) reaches the catch-all and answers 500. -/
def createPayslip (db : DBState) (now : String) (req : CreateRequest) :
    CreateResult × DBState :=
  match precheck req with
  | .reject m => (.badRequest m, db)
  | .thrown => (.internalError, db)
  | .ok =>
    if db.rows.any (pairMatches (req.employeeId.getD "") (req.monthYear.getD "")) then
      (.badRequest "Payslip already exists for this Employee ID and Month/Year", db)
    else
      let row := buildRow req now db.nextId
      if rowOk row then (.created db.nextId, ⟨db.rows ++ [row], db.nextId + 1⟩)
      else (.internalError, db)

/-- The create handler under a lost race: `interleaved` rows are committed by
a concurrent request between this request's duplicate pre-check and its
INSERT.  When the insert then violates `unique_employee_month_year`
(schema line 25), the storage client throws and the handler's catch-all
(server.js:181-184) answers 500. -/
def createPayslipRaced (db : DBState) (now : String) (req : CreateRequest)
    (interleaved : List Payslip) : CreateResult × DBState :=
  match precheck req with
  | .reject m => (.badRequest m, db)
  | .thrown => (.internalError, db)
  | .ok =>
    if db.rows.any (pairMatches (req.employeeId.getD "") (req.monthYear.getD "")) then
      (.badRequest "Payslip already exists for this Employee ID and Month/Year", db)
    else
      let rows' := db.rows ++ interleaved
      if rows'.any (pairMatches (req.employeeId.getD "") (req.monthYear.getD "")) then
        (.internalError, ⟨rows', db.nextId⟩)
      else
        let row := buildRow req now db.nextId
        if rowOk row then (.created db.nextId, ⟨rows' ++ [row], db.nextId + 1⟩)
        else (.internalError, ⟨rows', db.nextId⟩)

/-! ## The read and delete endpoints (server.js:188-243, 268-328) -/

/-- SQL `LIKE`, full-string match with the `%` and `_` wildcards, on code
points (the patterns this program builds contain no escape sequences). -/
def likeMatch (p s : List Char) : Bool :=
  match p, s with
  | [], [] => true
  | [], _ :: _ => false
  | c :: p', [] => if c = '%' then likeMatch p' [] else false
  | c :: p', ch :: s' =>
    if c = '%' then likeMatch p' (ch :: s') || likeMatch (c :: p') s'
    else if c = '_' then likeMatch p' s'
    else c = ch && likeMatch p' s'
termination_by (s.length, p.length)

/-- List-prefix test (the reference meaning a `LIKE 'key%'` pattern is
compared against). -/
def leadsList : List Char → List Char → Bool
  | [], _ => true
  | _ :: _, [] => false
  | c :: p', c' :: s' => c = c' && leadsList p' s'

/-- `month.padStart(2, '0')`. -/
def padStart2 (s : String) : String :=
  if s.length < 2 then String.mk (List.replicate (2 - s.length) '0') ++ s else s

/-- The period key the GET handler builds (server.js:201):
`${year}-${month.padStart(2, '0')}`. -/
def mkKey (year month : String) : String :=
  year ++ "-" ++ padStart2 month

/-- The JSON object `GET /api/payslips` answers with (server.js:213-238):
the row's columns in camelCase plus the two derived presentation fields.
`Number(x)` on the DECIMAL columns is modelled on the stored value
(`Number(null)` is 0). -/
structure PayslipView where
  id : ℕ
  employeeId : String
  employeeName : Option String
  designation : Option String
  dateJoining : Option String
  monthYear : String
  monthYearFormatted : String
  employeeType : Option String
  location : Option String
  bankName : Option String
  accountNo : Option String
  workingDays : Option ℚ
  daysInMonth : Option ℤ
  lop : ℚ
  pan : Option String
  duration : Option String
  earnings : List LineItem
  deductions : List LineItem
  grossPay : JSNum
  totalDeductions : JSNum
  netPay : JSNum
  providentFund : Option String
  uan : Option String
  esic : Option String
deriving DecidableEq, Repr

/-- `Number(column)` for a nullable DECIMAL column: NULL coerces to 0. -/
def jsNumberOfCol : Option JSNum → JSNum
  | none => .val 0
  | some n => n

/-- The enrichment of a stored row into the identity-lookup response
(server.js:213-238), including `monthYearFormatted` and `daysInMonth`. -/
def enrichPayslip (r : Payslip) : PayslipView :=
  { id := r.id
    employeeId := r.employee_id
    employeeName := r.employee_name
    designation := r.designation
    dateJoining := r.date_joining
    monthYear := r.month_year
    monthYearFormatted := formatMonthYear r.month_year
    employeeType := r.employee_type
    location := r.location
    bankName := r.bank_name
    accountNo := r.account_no
    workingDays := r.working_days
    daysInMonth := getDaysInMonthStr r.month_year
    lop := r.lop
    pan := r.pan
    duration := r.duration
    earnings := r.earnings
    deductions := r.deductions
    grossPay := jsNumberOfCol r.gross_pay
    totalDeductions := jsNumberOfCol r.total_deductions
    netPay := jsNumberOfCol r.net_pay
    providentFund := r.provident_fund
    uan := r.uan
    esic := r.esic }

/-- The response of `GET /api/payslips`. -/
inductive GetResult where
  | badRequest (msg : String) : GetResult
  | notFound : GetResult
  | found (v : PayslipView) : GetResult
deriving DecidableEq, Repr

/-- `GET /api/payslips` (server.js:188-243): presence and employee-id
validation, then `SELECT * WHERE employee_id = $1 AND month_year LIKE $2`
with the pattern `${year}-${month.padStart(2,'0')}%`, answering 404 on no
rows and otherwise the first row, enriched. -/
def getByIdentity (rows : List Payslip)
    (employeeId month year : Option String) : GetResult :=
  if !strTruthy employeeId || !strTruthy month || !strTruthy year then
    .badRequest "Employee ID, month, and year are required"
  else if !validateEmployeeId (employeeId.getD "") then
    .badRequest "Invalid Employee ID format (e.g., ATS0123)"
  else
    let key := mkKey (year.getD "") (month.getD "")
    let hits := rows.filter (fun r =>
      r.employee_id = employeeId.getD "" &&
        likeMatch (key.data ++ ['%']) r.month_year.data)
    match hits with
    | [] => .notFound
    | r :: _ => .found (enrichPayslip r)

/-- `GET /api/payslips/:id` (server.js:268-311): `SELECT * WHERE id = $1`,
404 when no row, otherwise the raw row (no presentation enrichment). -/
def getById (rows : List Payslip) (id : ℕ) : Option Payslip :=
  (rows.filter (fun r => r.id = id)).head?

/-- The response of `DELETE /api/payslips/:id`. -/
inductive DeleteResult where
  | notFound : DeleteResult
  | success : DeleteResult
deriving DecidableEq, Repr

/-- `DELETE /api/payslips/:id` (server.js:314-328): `DELETE WHERE id = $1`,
404 when `rowCount` is 0, otherwise a success message. -/
def deleteById (rows : List Payslip) (id : ℕ) : DeleteResult × List Payslip :=
  let remaining := rows.filter (fun r => !(r.id = id))
  if remaining.length = rows.length then (.notFound, rows)
  else (.success, remaining)

/-! ## Specification-side definitions, written from the spec's wording, to be
compared with the source-side functions above. -/

/-- Spec side of the employee-id rule: the four-character prefix `ATS0`
followed by exactly three digits that are not the sequence `000`. -/
def EmployeeIdSpec (s : String) : Prop :=
  ∃ d1 d2 d3 : Char,
    s.data = ['A', 'T', 'S', '0', d1, d2, d3] ∧
    isDigitCh d1 = true ∧ isDigitCh d2 = true ∧ isDigitCh d3 = true ∧
    ¬(d1 = '0' ∧ d2 = '0' ∧ d3 = '0')

/-- Words of letters separated by single separator characters drawn from
`sep`: the shape "letters separated by single spaces" with the separator
class left as a parameter. -/
inductive SepShape (sep : Char → Bool) : List Char → Prop where
  | single (w : List Char) (hne : w ≠ [])
      (hal : ∀ c ∈ w, isAlphaCh c = true) : SepShape sep w
  | more (w : List Char) (c : Char) (t : List Char) (hne : w ≠ [])
      (hal : ∀ x ∈ w, isAlphaCh x = true) (hsep : sep c = true)
      (ht : SepShape sep t) : SepShape sep (w ++ c :: t)

/-- The name rule exactly as the claim words it: the trimmed form has length
5..30, its content is letters separated by single space characters, and it
contains at least 5 letters. -/
def NameSpecClaimed (s : String) : Prop :=
  let t := trimChars s.data
  5 ≤ t.length ∧ t.length ≤ 30 ∧ SepShape (fun c => c = ' ') t ∧
    5 ≤ (t.filter isAlphaCh).length

/-- The name rule amended to what the code enforces: the separators are
single JavaScript whitespace characters, not only the space. -/
def NameSpecAmended (s : String) : Prop :=
  let t := trimChars s.data
  5 ≤ t.length ∧ t.length ≤ 30 ∧ SepShape isJsWs t ∧
    5 ≤ (t.filter isAlphaCh).length

/-- "Rounded to 2 decimal places" of the spec. -/
def roundTo2 (q : ℚ) : ℚ := (jsRound (q * 100) : ℚ) / 100

/-- The Gregorian leap-year rule as the spec means it. -/
def gregorianLeap (y : ℤ) : Prop := (4 ∣ y ∧ ¬(100 ∣ y)) ∨ 400 ∣ y

instance (y : ℤ) : Decidable (gregorianLeap y) := by
  unfold gregorianLeap
  exact inferInstance

/-- The number of calendar days in month `m` (1-based) of year `y`,
written from the calendar, not from the code. -/
def daysInGregorianMonth (y : ℤ) (m : ℕ) : ℤ :=
  if m = 2 then (if gregorianLeap y then 29 else 28)
  else if m = 4 ∨ m = 6 ∨ m = 9 ∨ m = 11 then 30
  else 31

/-! ## Concrete sample data used by the witnesses -/

/-- A create request that passes every validation and satisfies every schema
constraint. -/
def sampleRequest : CreateRequest :=
  { employeeId := some "ATS0123", employeeName := some "Alice Smith",
    designation := none, dateJoining := none, monthYear := some "2024-01",
    employeeType := some "Permanent", location := none, bankName := none,
    accountNo := none, workingDays := some (.val 30), lop := some (.val 0),
    pan := none, duration := none,
    earnings := some [⟨"Basic Salary", .val 30000⟩],
    deductions := some [],
    grossPay := some (.val 30000), totalDeductions := some (.val 0),
    netPay := some (.val 30000), providentFund := none, uan := none, esic := none }

/-- The row a successful `sampleRequest` create stores: the row a concurrent
winner would have committed for the pair (ATS0123, 2024-01). -/
def conflictRow : Payslip := buildRow sampleRequest "2024-01-31T00:00:00.000Z" 1

/-! ## Helper lemmas -/

theorem isJsWs_not_alpha {c : Char} (h : isJsWs c = true) : isAlphaCh c = false := by
  simp only [isJsWs, Bool.or_eq_true, decide_eq_true_eq, Bool.and_eq_true] at h
  simp only [isAlphaCh, Bool.or_eq_true, decide_eq_true_eq, Bool.and_eq_true,
    Bool.and_eq_false_imp, Bool.or_eq_false_iff, Bool.and_eq_false_iff,
    decide_eq_false_iff_not, not_le]
  omega

theorem filter_alpha_dropWhile (l : List Char) :
    (l.dropWhile isJsWs).filter isAlphaCh = l.filter isAlphaCh := by
  induction l with
  | nil => rfl
  | cons c rest ih =>
    by_cases h : isJsWs c = true
    · rw [List.dropWhile_cons_of_pos h, ih, List.filter_cons_of_neg]
      simp [isJsWs_not_alpha h]
    · rw [List.dropWhile_cons_of_neg h]

theorem countAlpha_trim (l : List Char) :
    ((trimChars l).filter isAlphaCh).length = (l.filter isAlphaCh).length := by
  unfold trimChars
  rw [List.filter_reverse, List.length_reverse, filter_alpha_dropWhile,
    List.filter_reverse, List.length_reverse, filter_alpha_dropWhile]

theorem sepShape_cons_alpha {sep : Char → Bool} {c : Char} {t : List Char}
    (hc : isAlphaCh c = true) (ht : SepShape sep t) : SepShape sep (c :: t) := by
  induction ht with
  | single w hne hal =>
    refine SepShape.single (c :: w) (by simp) ?_
    intro x hx
    rcases List.mem_cons.1 hx with rfl | hx
    · exact hc
    · exact hal x hx
  | more w c' t' hne hal hsep ht' ih =>
    have hrw : c :: (w ++ c' :: t') = (c :: w) ++ c' :: t' := rfl
    rw [hrw]
    refine SepShape.more (c :: w) c' t' (by simp) ?_ hsep ht'
    intro x hx
    rcases List.mem_cons.1 hx with rfl | hx
    · exact hc
    · exact hal x hx

theorem nameDFA_all_alpha {w : List Char} (hne : w ≠ [])
    (hal : ∀ c ∈ w, isAlphaCh c = true) : ∀ st, nameDFA w st = true := by
  induction w with
  | nil => exact absurd rfl hne
  | cons c rest ih =>
    intro st
    have hc : isAlphaCh c = true := hal c (by simp)
    simp only [nameDFA, hc, if_true]
    rcases rest with _ | ⟨c2, rest'⟩
    · rfl
    · exact ih (by simp) (fun x hx => hal x (by simp [hx])) true

theorem nameDFA_append_alpha {w : List Char} (hne : w ≠ [])
    (hal : ∀ c ∈ w, isAlphaCh c = true) (rest : List Char) :
    ∀ st, nameDFA (w ++ rest) st = nameDFA rest true := by
  induction w with
  | nil => exact absurd rfl hne
  | cons c w' ih =>
    intro st
    have hc : isAlphaCh c = true := hal c (by simp)
    simp only [List.cons_append, nameDFA, hc, if_true]
    rcases w' with _ | ⟨c2, w''⟩
    · rfl
    · exact ih (by simp) (fun x hx => hal x (by simp [hx])) true

theorem sepShape_nameDFA {t : List Char} (h : SepShape isJsWs t) :
    nameDFA t false = true := by
  induction h with
  | single w hne hal => exact nameDFA_all_alpha hne hal false
  | more w c t' hne hal hsep ht ih =>
    rw [nameDFA_append_alpha hne hal _ false]
    simp only [nameDFA, isJsWs_not_alpha hsep, if_false, hsep, Bool.true_and,
      if_true, Bool.false_eq_true]
    exact ih

theorem nameDFA_sepShape (t : List Char) :
    (nameDFA t false = true → SepShape isJsWs t) ∧
    (nameDFA t true = true →
      t = [] ∨ SepShape isJsWs t ∨
        ∃ c rest, t = c :: rest ∧ isJsWs c = true ∧ SepShape isJsWs rest) := by
  induction t with
  | nil =>
    constructor
    · intro h; simp [nameDFA] at h
    · intro _; exact Or.inl rfl
  | cons c rest ih =>
    by_cases hc : isAlphaCh c = true
    · have step : ∀ st : Bool, nameDFA (c :: rest) st = nameDFA rest true := by
        intro st; simp [nameDFA, hc]
      have main : nameDFA rest true = true → SepShape isJsWs (c :: rest) := by
        intro h
        rcases ih.2 h with hrest | hrest | ⟨c', rest', hEq, hws, hshape⟩
        · subst hrest
          exact SepShape.single [c] (by simp) (by simpa using hc)
        · exact sepShape_cons_alpha hc hrest
        · subst hEq
          exact SepShape.more [c] c' rest' (by simp) (by simpa using hc) hws hshape
      constructor
      · intro h; rw [step] at h; exact main h
      · intro h; rw [step] at h; exact Or.inr (Or.inl (main h))
    · have hcb : isAlphaCh c = false := by simpa using hc
      constructor
      · intro h
        simp [nameDFA, hcb] at h
      · intro h
        by_cases hw : isJsWs c = true
        · simp only [nameDFA, hcb, Bool.false_eq_true, if_false, hw,
            Bool.true_and, if_true] at h
          exact Or.inr (Or.inr ⟨c, rest, rfl, hw, (ih.1 h)⟩)
        · have hwb : isJsWs c = false := by simpa using hw
          simp [nameDFA, hcb, hwb] at h

theorem nameDFA_iff_sepShape (t : List Char) :
    nameDFA t false = true ↔ SepShape isJsWs t :=
  ⟨(nameDFA_sepShape t).1, sepShape_nameDFA⟩

theorem sepShape_mem {sep : Char → Bool} {t : List Char} (h : SepShape sep t) :
    ∀ c ∈ t, isAlphaCh c = true ∨ sep c = true := by
  induction h with
  | single w hne hal => intro c hc; exact Or.inl (hal c hc)
  | more w c' t' hne hal hsep ht ih =>
    intro c hc
    rcases List.mem_append.1 hc with hc | hc
    · exact Or.inl (hal c hc)
    · rcases List.mem_cons.1 hc with rfl | hc
      · exact Or.inr hsep
      · exact ih c hc

theorem likeMatch_percent (s : List Char) : likeMatch ['%'] s = true := by
  induction s with
  | nil => simp [likeMatch]
  | cons c s' ih => simp [likeMatch, ih]

theorem likeMatch_append_percent (p : List Char)
    (hp : ∀ c ∈ p, ¬(c = '%') ∧ ¬(c = '_')) :
    ∀ s, likeMatch (p ++ ['%']) s = leadsList p s := by
  induction p with
  | nil => intro s; simp [leadsList, likeMatch_percent]
  | cons c p' ih =>
    intro s
    have hc := hp c (by simp)
    rcases s with _ | ⟨ch, s'⟩
    · simp [likeMatch, leadsList, hc.1]
    · simp only [List.cons_append, likeMatch, leadsList, hc.1, hc.2, if_false]
      rw [ih (fun x hx => hp x (by simp [hx])) s']

theorem leadsList_eq_of_length {p s : List Char} (h : leadsList p s = true)
    (hl : p.length = s.length) : p = s := by
  induction p generalizing s with
  | nil =>
    rcases s with _ | ⟨c, s'⟩
    · rfl
    · simp at hl
  | cons c p' ih =>
    rcases s with _ | ⟨ch, s'⟩
    · simp [leadsList] at h
    · simp only [leadsList, Bool.and_eq_true, decide_eq_true_eq] at h
      simp only [List.length_cons, Nat.add_right_cancel_iff] at hl
      rw [h.1, ih h.2 hl]

theorem leadsList_refl (p : List Char) : leadsList p p = true := by
  induction p with
  | nil => rfl
  | cons c p' ih => simp [leadsList, ih]

theorem monthYearShape_parts {s : String} (h : monthYearShape s = true) :
    ∃ a b c d e f, s.data = [a, b, c, d, '-', e, f] ∧
      isDigitCh a = true ∧ isDigitCh b = true ∧ isDigitCh c = true ∧
      isDigitCh d = true ∧ isDigitCh e = true ∧ isDigitCh f = true := by
  unfold monthYearShape at h
  split at h
  next a b c d e f heq =>
    simp only [Bool.and_eq_true] at h
    exact ⟨a, b, c, d, e, f, heq, h.1.1.1.1.1, h.1.1.1.1.2, h.1.1.1.2,
      h.1.1.2, h.1.2, h.2⟩
  next => exact absurd h (by simp)

theorem digit_not_wildcard {c : Char} (h : isDigitCh c = true) :
    ¬(c = '%') ∧ ¬(c = '_') := by
  constructor
  · rintro rfl; simp [isDigitCh] at h
  · rintro rfl; simp [isDigitCh] at h

theorem dash_not_wildcard : ¬(('-' : Char) = '%') ∧ ¬(('-' : Char) = '_') := by
  constructor <;> decide

theorem monthYearShape_no_wildcard {s : String} (h : monthYearShape s = true) :
    ∀ c ∈ s.data, ¬(c = '%') ∧ ¬(c = '_') := by
  obtain ⟨a, b, c, d, e, f, heq, ha, hb, hc, hd, he, hf⟩ := monthYearShape_parts h
  intro x hx
  rw [heq] at hx
  rcases List.mem_cons.1 hx with rfl | hx
  · exact digit_not_wildcard ha
  rcases List.mem_cons.1 hx with rfl | hx
  · exact digit_not_wildcard hb
  rcases List.mem_cons.1 hx with rfl | hx
  · exact digit_not_wildcard hc
  rcases List.mem_cons.1 hx with rfl | hx
  · exact digit_not_wildcard hd
  rcases List.mem_cons.1 hx with rfl | hx
  · exact dash_not_wildcard
  rcases List.mem_cons.1 hx with rfl | hx
  · exact digit_not_wildcard he
  rcases List.mem_cons.1 hx with rfl | hx
  · exact digit_not_wildcard hf
  · simp at hx

theorem monthYearShape_length {s : String} (h : monthYearShape s = true) :
    s.data.length = 7 := by
  obtain ⟨a, b, c, d, e, f, heq, -⟩ := monthYearShape_parts h
  rw [heq]; rfl

/-- A key and a stored value that both have the schema's `YYYY-MM` shape
match under `LIKE 'key%'` exactly when they are equal. -/
theorem like_shape_iff_eq {key v : String} (hk : monthYearShape key = true)
    (hv : monthYearShape v = true) :
    likeMatch (key.data ++ ['%']) v.data = true ↔ key = v := by
  rw [likeMatch_append_percent key.data (monthYearShape_no_wildcard hk)]
  constructor
  · intro h
    exact String.ext (leadsList_eq_of_length h
      (by rw [monthYearShape_length hk, monthYearShape_length hv]))
  · rintro rfl
    exact leadsList_refl _

theorem filter_eq_cons_self {α : Type} (p : α → Bool) (l : List α) (r : α)
    (hr : r ∈ l) (hpr : p r = true) (huni : ∀ x ∈ l, p x = true → x = r) :
    ∃ tl, l.filter p = r :: tl := by
  induction l with
  | nil => simp at hr
  | cons a l' ih =>
    by_cases hpa : p a = true
    · have : a = r := huni a (by simp) hpa
      subst this
      exact ⟨l'.filter p, by rw [List.filter_cons_of_pos hpa]⟩
    · have hra : r ≠ a := fun h => hpa (h ▸ hpr)
      have hr' : r ∈ l' := by
        rcases List.mem_cons.1 hr with rfl | h
        · exact absurd rfl hra
        · exact h
      obtain ⟨tl, htl⟩ := ih hr' (fun x hx hpx => huni x (by simp [hx]) hpx)
      refine ⟨tl, ?_⟩
      rw [List.filter_cons_of_neg (by simpa using hpa), htl]

theorem pairwise_key_unique {α β : Type} (f : α → β) {l : List α}
    (h : l.Pairwise (fun a b => f a ≠ f b)) {x y : α}
    (hx : x ∈ l) (hy : y ∈ l) (hf : f x = f y) : x = y := by
  induction l with
  | nil => simp at hx
  | cons a l' ih =>
    rcases List.pairwise_cons.1 h with ⟨ha, h'⟩
    rcases List.mem_cons.1 hx with rfl | hx' <;> rcases List.mem_cons.1 hy with rfl | hy'
    · rfl
    · exact absurd hf (ha y hy')
    · exact absurd hf.symm (ha x hx')
    · exact ih h' hx' hy'

theorem validateEmployeeId_not_empty {s : String}
    (h : validateEmployeeId s = true) : s.isEmpty = false := by
  cases he : s.isEmpty
  · rfl
  · rw [String.isEmpty_iff] at he
    subst he
    exact absurd h (by decide)

theorem inLeapYearJs_iff (y : ℤ) : inLeapYearJs y = true ↔ gregorianLeap y := by
  unfold inLeapYearJs daysInYearJs gregorianLeap
  split_ifs with h1 h2 h3 <;> simp <;> omega

theorem dayFromYear_succ (y : ℤ) :
    dayFromYear (y + 1) - dayFromYear y = daysInYearJs y := by
  unfold dayFromYear daysInYearJs
  split_ifs with h1 h2 h3 <;> omega

/-- The day-0-of-the-following-month computation agrees with the calendar
for every (MakeFullYear-mapped) year and every month 1..12. -/
theorem getDaysInMonthOfYear_eq (z : ℤ) (m : ℕ) (h1 : 1 ≤ m) (h2 : m ≤ 12) :
    getDaysInMonthOfYear z m = daysInGregorianMonth z m := by
  interval_cases m <;>
    simp only [getDaysInMonthOfYear, dayFromMonth, daysInGregorianMonth,
      inLeapYearJs, daysInYearJs, dayFromYear, gregorianLeap] <;>
    norm_num <;> omega

theorem getDaysInMonth_eq (y : ℤ) (m : ℕ) (h1 : 1 ≤ m) (h2 : m ≤ 12) :
    getDaysInMonth y m = daysInGregorianMonth (makeFullYear y) m := by
  unfold getDaysInMonth
  exact getDaysInMonthOfYear_eq (makeFullYear y) m h1 h2

theorem makeFullYear_of_ge {y : ℤ} (h : 100 ≤ y) : makeFullYear y = y := by
  unfold makeFullYear
  rw [if_neg]
  omega

theorem makeFullYear_of_le {y : ℤ} (h0 : 0 ≤ y) (h : y ≤ 99) :
    makeFullYear y = 1900 + y := by
  unfold makeFullYear
  rw [if_pos ⟨h0, h⟩]


theorem createPayslip_created_precheck {db : DBState} {now : String}
    {req : CreateRequest} {i : ℕ} {db' : DBState}
    (h : createPayslip db now req = (.created i, db')) : precheck req = .ok := by
  unfold createPayslip at h
  cases hpre : precheck req
  · simp [hpre] at h
  · simp [hpre] at h
  · rfl

theorem precheck_ok_earnings {req : CreateRequest} (h : precheck req = .ok) :
    ∃ es, req.earnings = some es ∧ es ≠ [] := by
  unfold precheck at h
  rcases hfc : fieldChecks req with _ | m
  · simp only [hfc] at h
    rcases hes : req.earnings with _ | es
    · simp only [hes] at h
      exact absurd h (by simp)
    · simp only [hes] at h
      by_cases hl : es.length = 0
      · simp [hl] at h
      · exact ⟨es, rfl, fun he => hl (by simp [he])⟩
  · rw [hfc] at h
    exact absurd h (by simp)

theorem precheck_ok_deductions {req : CreateRequest} (h : precheck req = .ok) :
    ∃ ds, req.deductions = some ds := by
  unfold precheck at h
  rcases hfc : fieldChecks req with _ | m
  · simp only [hfc] at h
    rcases hes : req.earnings with _ | es
    · simp only [hes] at h
      exact absurd h (by simp)
    · simp only [hes] at h
      by_cases hl : es.length = 0
      · simp [hl] at h
      · rw [if_neg hl] at h
        rcases hic : itemsCheck "earning" es with _ | m
        · simp only [hic] at h
          rcases hd : req.deductions with _ | ds
          · simp only [hd] at h
            exact absurd h (by simp)
          · exact ⟨ds, rfl⟩
        · simp only [hic] at h
          exact absurd h (by simp)
  · rw [hfc] at h
    exact absurd h (by simp)

/-! ## The claims -/

/-- Claim C1: a create request whose (employeeId, monthYear) pair equals that
of an already-persisted payslip fails with the Duplicate error and leaves the
stored state unchanged; in particular, creating a payslip for
(ATS0123, 2024-01) twice makes the second call fail that way while the state
keeps the single row of the first call. -/
theorem duplicate_create_spec :
    (∀ (db : DBState) (now : String) (req : CreateRequest) (eid my : String),
      req.employeeId = some eid → req.monthYear = some my →
      precheck req = .ok →
      (∃ r ∈ db.rows, r.employee_id = eid ∧ r.month_year = my) →
      createPayslip db now req =
        (.badRequest "Payslip already exists for this Employee ID and Month/Year", db)) ∧
    ((createPayslip ⟨[], 1⟩ "2024-02-01T00:00:00.000Z" sampleRequest).1 = .created 1 ∧
      createPayslip (createPayslip ⟨[], 1⟩ "2024-02-01T00:00:00.000Z" sampleRequest).2
          "2024-02-02T00:00:00.000Z" sampleRequest =
        (.badRequest "Payslip already exists for this Employee ID and Month/Year",
          (createPayslip ⟨[], 1⟩ "2024-02-01T00:00:00.000Z" sampleRequest).2)) := by
  refine ⟨?_, by decide, by decide⟩
  intro db now req eid my hid hmy hpre ⟨r, hr, hre, hrm⟩
  unfold createPayslip
  rw [hpre]
  have hany : db.rows.any
      (pairMatches (req.employeeId.getD "") (req.monthYear.getD "")) = true := by
    rw [List.any_eq_true]
    exact ⟨r, hr, by simp [pairMatches, hid, hmy, hre, hrm]⟩
  rw [hany]
  rfl

theorem duplicate_create_spec_witness :
    createPayslip ⟨[conflictRow], 2⟩ "2024-02-02T00:00:00.000Z" sampleRequest =
      (.badRequest "Payslip already exists for this Employee ID and Month/Year",
        ⟨[conflictRow], 2⟩) :=
  duplicate_create_spec.1 ⟨[conflictRow], 2⟩ _ _ "ATS0123" "2024-01" rfl rfl
    (by decide) ⟨conflictRow, by simp, by decide, by decide⟩

/-- Claim C2: the handler does NOT translate a uniqueness-constraint failure
of the insert into the Duplicate error.  When the conflicting row lands
between the pre-check and the insert, the catch-all answers the generic 500
internal failure, while the very same stored conflict seen by the pre-check
answers the Duplicate 400 — the code diverges from the specified behaviour. -/
theorem createRace_internal_error :
    createPayslipRaced ⟨[], 1⟩ "2024-02-01T00:00:00.000Z" sampleRequest [conflictRow] =
      (.internalError, ⟨[conflictRow], 1⟩) ∧
    createPayslip ⟨[conflictRow], 2⟩ "2024-02-01T00:00:00.000Z" sampleRequest =
      (.badRequest "Payslip already exists for this Employee ID and Month/Year",
        ⟨[conflictRow], 2⟩) :=
  ⟨by decide, by decide⟩

/-- Claim C3: `validateEmployeeId s` is true exactly when `s` is the
four-character prefix `ATS0` followed by three digits that are not the
sequence `000`; in particular `ATS0123` is accepted and `ATS0000` rejected. -/
theorem employeeId_validator_spec :
    (∀ s : String, validateEmployeeId s = true ↔ EmployeeIdSpec s) ∧
    validateEmployeeId "ATS0123" = true ∧ validateEmployeeId "ATS0000" = false := by
  refine ⟨?_, by decide, by decide⟩
  intro s
  constructor
  · intro h
    unfold validateEmployeeId at h
    split at h
    next d1 d2 d3 heq =>
      obtain ⟨⟨⟨h1, h2⟩, h3⟩, h4⟩ := by simpa only [Bool.and_eq_true] using h
      refine ⟨d1, d2, d3, heq, h1, h2, h3, ?_⟩
      rintro ⟨rfl, rfl, rfl⟩
      simp at h4
    next => simp at h
  · rintro ⟨d1, d2, d3, heq, h1, h2, h3, hne⟩
    have hrw : validateEmployeeId s =
        (isDigitCh d1 && isDigitCh d2 && isDigitCh d3 &&
          !(d1 = '0' && d2 = '0' && d3 = '0')) := by
      unfold validateEmployeeId
      rw [heq]
      rfl
    rw [hrw]
    simp only [h1, h2, h3, Bool.true_and, Bool.and_self, Bool.not_eq_true',
      Bool.and_eq_false_iff, decide_eq_false_iff_not]
    by_cases e1 : d1 = '0'
    · by_cases e2 : d2 = '0'
      · exact Or.inr (fun e3 => hne ⟨e1, e2, e3⟩)
      · exact Or.inl (Or.inr e2)
    · exact Or.inl (Or.inl e1)

/-- Claim C4, counterexample: the code accepts a name whose separator is a
tab, which is not a space, so the claimed characterisation (letters separated
by single space characters) does not hold as stated. -/
theorem name_validator_counterexample :
    validateAlphabeticWithSpaces "ab\tcde" = true ∧ ¬ NameSpecClaimed "ab\tcde" := by
  refine ⟨by decide, ?_⟩
  rintro ⟨h1, h2, h3, h4⟩
  have ht : trimChars "ab\tcde".data = ['a', 'b', '\t', 'c', 'd', 'e'] := by decide
  rw [ht] at h3
  rcases sepShape_mem h3 '\t' (by decide) with h | h
  · exact absurd h (by decide)
  · exact absurd h (by decide)

/-- Claim C4, amended: `validateAlphabeticWithSpaces s` is true exactly when
the trimmed form of `s` has length 5..30, is letters separated by single
JavaScript whitespace characters (the regex class that `\s` denotes, not only
the space), and contains at least 5 letters. -/
theorem name_validator_amended (s : String) :
    validateAlphabeticWithSpaces s = true ↔ NameSpecAmended s := by
  unfold validateAlphabeticWithSpaces NameSpecAmended
  simp only [Bool.and_eq_true, decide_eq_true_eq]
  constructor
  · rintro ⟨⟨⟨hlen1, hlen2⟩, hdfa⟩, hcount⟩
    exact ⟨hlen1, hlen2, (nameDFA_iff_sepShape _).1 hdfa, by rwa [countAlpha_trim]⟩
  · rintro ⟨hlen1, hlen2, hshape, hcount⟩
    exact ⟨⟨⟨hlen1, hlen2⟩, (nameDFA_iff_sepShape _).2 hshape⟩,
      by rwa [countAlpha_trim] at hcount⟩

/-- Claim C5: the LOP deduction is the exact quotient times the LOP count,
rounded to 2 decimal places, and 0 whenever an input is NaN or the working
days are 0; with the particular values the claim lists. -/
theorem lopDeduction_spec :
    (∀ g w l : ℚ, w ≠ 0 → calculateLOPDeduction (.val g) (.val w) (.val l) =
        roundTo2 (g / w * l)) ∧
    (∀ x y : JSNum, calculateLOPDeduction x (.val 0) y = 0) ∧
    (∀ a b c : JSNum, (a.isNaN || b.isNaN || c.isNaN) = true →
        calculateLOPDeduction a b c = 0) ∧
    calculateLOPDeduction (.val 30000) (.val 30) (.val 2) = 2000 ∧
    calculateLOPDeduction .nan (.val 10) (.val 1) = 0 := by
  refine ⟨?_, ?_, ?_, ?_, rfl⟩
  · intro g w l hw
    simp [calculateLOPDeduction, roundTo2, hw]
  · intro x y
    rcases x <;> rcases y <;> simp [calculateLOPDeduction]
  · intro a b c h
    rcases a <;> rcases b <;> rcases c <;> simp_all [calculateLOPDeduction, JSNum.isNaN]
  · norm_num [calculateLOPDeduction, jsRound]

theorem lopDeduction_spec_witness :
    calculateLOPDeduction (.val 30000) (.val 30) (.val 2) = roundTo2 (30000 / 30 * 2) ∧
    calculateLOPDeduction .nan (.val 10) (.val 1) = 0 :=
  ⟨lopDeduction_spec.1 30000 30 2 (by norm_num),
   lopDeduction_spec.2.2.1 .nan (.val 10) (.val 1) (by decide)⟩

/-- Claim C6, counterexample: the in-domain key `0000-02` refutes the claim
as stated.  `new Date(0, 2, 0)` passes through the Date constructor's
MakeFullYear rule (a year 0..99 becomes 1900 + year), so the program answers
28 (February 1900), while February of year 0 has 29 calendar days. -/
theorem daysInPeriod_counterexample :
    getDaysInMonthStr "0000-02" = some 28 ∧ daysInGregorianMonth 0 2 = 29 :=
  ⟨by decide, by decide⟩

/-- Claim C6, amended: on every `YYYY-MM` key with month 1..12 and year at
least 0100 the helper returns the number of calendar days of that year and
month with the Gregorian leap-year rule; for a year 00..99 the Date
constructor maps the year to 1900 + year and the helper returns the days of
the mapped year; in particular 29 for 2024-02, 28 for 2023-02 and 30 for
2024-04. -/
theorem daysInPeriod_spec :
    (∀ (s : String) (yl ml : List Char) (rest : List (List Char)) (yn mn : ℕ),
      splitOnCh '-' s.data = yl :: ml :: rest →
      jsNumberOfString yl = some yn → jsNumberOfString ml = some mn →
      100 ≤ yn → 1 ≤ mn → mn ≤ 12 →
      getDaysInMonthStr s = some (daysInGregorianMonth (yn : ℤ) mn)) ∧
    (∀ (s : String) (yl ml : List Char) (rest : List (List Char)) (yn mn : ℕ),
      splitOnCh '-' s.data = yl :: ml :: rest →
      jsNumberOfString yl = some yn → jsNumberOfString ml = some mn →
      yn ≤ 99 → 1 ≤ mn → mn ≤ 12 →
      getDaysInMonthStr s = some (daysInGregorianMonth (1900 + (yn : ℤ)) mn)) ∧
    getDaysInMonthStr "2024-02" = some 29 ∧
    getDaysInMonthStr "2023-02" = some 28 ∧
    getDaysInMonthStr "2024-04" = some 30 := by
  refine ⟨?_, ?_, by decide, by decide, by decide⟩
  · intro s yl ml rest yn mn hsplit hy hm hy100 hm1 hm2
    unfold getDaysInMonthStr
    rw [hsplit]
    simp only [hy, hm]
    rw [getDaysInMonth_eq (yn : ℤ) mn hm1 hm2,
      makeFullYear_of_ge (by exact_mod_cast hy100)]
  · intro s yl ml rest yn mn hsplit hy hm hy99 hm1 hm2
    unfold getDaysInMonthStr
    rw [hsplit]
    simp only [hy, hm]
    rw [getDaysInMonth_eq (yn : ℤ) mn hm1 hm2,
      makeFullYear_of_le (by positivity) (by exact_mod_cast hy99)]

theorem daysInPeriod_spec_witness :
    getDaysInMonthStr "2024-02" = some (daysInGregorianMonth 2024 2) ∧
    getDaysInMonthStr "0000-02" = some (daysInGregorianMonth (1900 + 0) 2) :=
  ⟨daysInPeriod_spec.1 "2024-02" ['2', '0', '2', '4'] ['0', '2'] [] 2024 2
      (by decide) (by decide) (by decide) (by decide) (by decide) (by decide),
   daysInPeriod_spec.2.1 "0000-02" ['0', '0', '0', '0'] ['0', '2'] [] 0 2
      (by decide) (by decide) (by decide) (by decide) (by decide) (by decide)⟩

/-- Claim C7: a create whose earnings are absent or empty is rejected with a
400 validation message whatever the other fields hold, an empty deductions
array is accepted, and a create can only succeed when the earnings sequence
is non-empty. -/
theorem earnings_required_spec :
    (∀ (db : DBState) (now : String) (req : CreateRequest),
      (req.earnings = none ∨ req.earnings = some []) →
      ∃ msg, createPayslip db now req = (.badRequest msg, db)) ∧
    (∀ (db : DBState) (now : String) (req : CreateRequest) (i : ℕ) (db' : DBState),
      createPayslip db now req = (.created i, db') →
      ∃ es, req.earnings = some es ∧ es ≠ []) ∧
    createPayslip ⟨[], 1⟩ "2024-02-01T00:00:00.000Z" sampleRequest =
      (.created 1, ⟨[buildRow sampleRequest "2024-02-01T00:00:00.000Z" 1], 2⟩) := by
  refine ⟨?_, ?_, by decide⟩
  · intro db now req h
    unfold createPayslip precheck
    rcases hfc : fieldChecks req with _ | m
    · rcases h with h | h <;> simp [hfc, h]
    · exact ⟨m, by simp [hfc]⟩
  · intro db now req i db' h
    exact precheck_ok_earnings (createPayslip_created_precheck h)

theorem earnings_required_spec_witness :
    (∃ msg, createPayslip ⟨[], 1⟩ "2024-02-01T00:00:00.000Z"
      { sampleRequest with earnings := none } = (.badRequest msg, ⟨[], 1⟩)) ∧
    (∃ msg, createPayslip ⟨[], 1⟩ "2024-02-01T00:00:00.000Z"
      { sampleRequest with earnings := some [] } = (.badRequest msg, ⟨[], 1⟩)) :=
  ⟨earnings_required_spec.1 _ _ _ (Or.inl rfl),
   earnings_required_spec.1 _ _ _ (Or.inr rfl)⟩

/-- Claim C8: with the schema shape of every stored period key and the
uniqueness of (employeeId, monthYear), the identity lookup with a
`YYYY-MM`-shaped key returns exactly the stored record whose key is equal
(the LIKE prefix pattern cannot match anything else), enriched with the
formatted period label and the days-in-period field, and answers NotFound
when no such record exists. -/
theorem getByIdentity_spec (rows : List Payslip) (eid month year : String)
    (hval : validateEmployeeId eid = true)
    (hm : month ≠ "") (hy : year ≠ "")
    (hkey : monthYearShape (mkKey year month) = true)
    (hrows : ∀ r ∈ rows, monthYearShape r.month_year = true)
    (hpw : rows.Pairwise (fun a b =>
      (a.employee_id, a.month_year) ≠ (b.employee_id, b.month_year))) :
    (∀ r ∈ rows, r.employee_id = eid → r.month_year = mkKey year month →
      getByIdentity rows (some eid) (some month) (some year) =
        .found (enrichPayslip r)) ∧
    ((∀ r ∈ rows, ¬(r.employee_id = eid ∧ r.month_year = mkKey year month)) →
      getByIdentity rows (some eid) (some month) (some year) = .notFound) := by
  have heid : eid.isEmpty = false := validateEmployeeId_not_empty hval
  have hmne : month.isEmpty = false := by
    cases h : month.isEmpty
    · rfl
    · exact absurd ((String.isEmpty_iff _).1 h) hm
  have hyne : year.isEmpty = false := by
    cases h : year.isEmpty
    · rfl
    · exact absurd ((String.isEmpty_iff _).1 h) hy
  have hopen : getByIdentity rows (some eid) (some month) (some year) =
      (match rows.filter (fun r => r.employee_id = eid &&
          likeMatch ((mkKey year month).data ++ ['%']) r.month_year.data) with
        | [] => GetResult.notFound
        | r :: _ => .found (enrichPayslip r)) := by
    unfold getByIdentity
    simp [strTruthy, heid, hmne, hyne, hval]
  constructor
  · intro r hr he hmy
    rw [hopen]
    obtain ⟨tl, htl⟩ := filter_eq_cons_self
      (fun x => x.employee_id = eid &&
        likeMatch ((mkKey year month).data ++ ['%']) x.month_year.data) rows r hr
      (by
        simp only [Bool.and_eq_true, decide_eq_true_eq]
        exact ⟨he, (like_shape_iff_eq hkey (hrows r hr)).2 hmy.symm⟩)
      (by
        intro x hx hpx
        simp only [Bool.and_eq_true, decide_eq_true_eq] at hpx
        have hxk : mkKey year month = x.month_year :=
          (like_shape_iff_eq hkey (hrows x hx)).1 hpx.2
        refine pairwise_key_unique (fun p => (p.employee_id, p.month_year)) hpw hx hr ?_
        rw [Prod.mk.injEq]
        exact ⟨hpx.1.trans he.symm, hxk.symm.trans hmy.symm⟩)
    rw [htl]
  · intro hnone
    rw [hopen]
    have hfil : rows.filter (fun x => x.employee_id = eid &&
        likeMatch ((mkKey year month).data ++ ['%']) x.month_year.data) = [] := by
      rw [List.filter_eq_nil_iff]
      intro a ha
      simp only [Bool.and_eq_true, decide_eq_true_eq, not_and]
      intro hae hal
      exact hnone a ha ⟨hae, ((like_shape_iff_eq hkey (hrows a ha)).1 hal).symm⟩
    rw [hfil]

theorem getByIdentity_spec_witness :
    getByIdentity [conflictRow] (some "ATS0123") (some "1") (some "2024") =
      .found (enrichPayslip conflictRow) :=
  (getByIdentity_spec [conflictRow] "ATS0123" "1" "2024" (by decide) (by decide)
      (by decide) (by decide) (by decide) (by simp)).1
    conflictRow (by simp) (by decide) (by decide)

/-- Claim C9: deleting an id with no matching record answers NotFound and
leaves the state unchanged; deleting an existing id (ids being unique)
removes exactly that record, and a subsequent lookup of the same id answers
NotFound. -/
theorem deleteById_spec :
    (∀ (rows : List Payslip) (id : ℕ), (∀ r ∈ rows, ¬(r.id = id)) →
      deleteById rows id = (.notFound, rows)) ∧
    (∀ (rows : List Payslip) (id : ℕ) (r : Payslip),
      rows.Pairwise (fun a b => a.id ≠ b.id) → r ∈ rows → r.id = id →
      (deleteById rows id).1 = .success ∧
      (∀ x, x ∈ (deleteById rows id).2 ↔ (x ∈ rows ∧ x ≠ r)) ∧
      getById (deleteById rows id).2 id = none) := by
  constructor
  · intro rows id h
    unfold deleteById
    have hfe : rows.filter (fun r => !(r.id = id)) = rows := by
      rw [List.filter_eq_self]
      intro a ha
      simpa using h a ha
    rw [hfe]
    simp
  · intro rows id r hpw hr hid
    have hmem : ∀ x, x ∈ (rows.filter (fun r => !(r.id = id))) ↔ (x ∈ rows ∧ x ≠ r) := by
      intro x
      rw [List.mem_filter]
      constructor
      · rintro ⟨hx, hxid⟩
        refine ⟨hx, ?_⟩
        rintro rfl
        simp [hid] at hxid
      · rintro ⟨hx, hxr⟩
        refine ⟨hx, ?_⟩
        simp only [Bool.not_eq_true', decide_eq_false_iff_not]
        intro hxid
        exact hxr (pairwise_key_unique Payslip.id hpw hx hr (hxid.trans hid.symm))
    have hlen : (rows.filter (fun r => !(r.id = id))).length ≠ rows.length := by
      intro hEq
      have hsub : rows.filter (fun r => !(r.id = id)) = rows :=
        List.Sublist.eq_of_length (List.filter_sublist rows) hEq
      have hrf : r ∈ rows.filter (fun r => !(r.id = id)) := hsub.symm ▸ hr
      exact ((hmem r).1 hrf).2 rfl
    have hdel : deleteById rows id = (.success, rows.filter (fun r => !(r.id = id))) := by
      unfold deleteById
      simp [hlen]
    refine ⟨by rw [hdel], fun x => by rw [hdel]; exact hmem x, ?_⟩
    rw [hdel]
    unfold getById
    have hnil : (rows.filter (fun r => !(r.id = id))).filter (fun r => r.id = id) = [] := by
      rw [List.filter_eq_nil_iff]
      intro a ha
      have hane := ((hmem a).1 ha).2
      simp only [decide_eq_true_eq]
      intro haid
      exact hane (pairwise_key_unique Payslip.id hpw ((hmem a).1 ha).1 hr
        (haid.trans hid.symm))
    rw [hnil]
    rfl

theorem deleteById_spec_witness :
    deleteById [conflictRow] 2 = (.notFound, [conflictRow]) ∧
    getById (deleteById [conflictRow] 1).2 1 = none :=
  ⟨deleteById_spec.1 [conflictRow] 2 (by decide),
   (deleteById_spec.2 [conflictRow] 1 conflictRow (by simp) (by simp) (by decide)).2.2⟩

/-- Claim C10: a create whose body omits the deductions field entirely, with
every other field valid and earnings a valid non-empty sequence, is not a
field-specific 400 rejection: iterating the absent sequence throws and the
catch-all answers the generic 500; and a create can only succeed when a
deductions array (possibly empty) was supplied. -/
theorem missing_deductions_spec :
    (∀ (db : DBState) (now : String) (req : CreateRequest) (es : List LineItem),
      fieldChecks req = none → req.earnings = some es → es ≠ [] →
      itemsCheck "earning" es = none → req.deductions = none →
      createPayslip db now req = (.internalError, db)) ∧
    (∀ (db : DBState) (now : String) (req : CreateRequest) (i : ℕ) (db' : DBState),
      createPayslip db now req = (.created i, db') →
      ∃ ds, req.deductions = some ds) := by
  constructor
  · intro db now req es hfc hes hne hic hded
    have hl : ¬(es.length = 0) := fun h => hne (List.length_eq_zero.1 h)
    unfold createPayslip precheck
    simp [hfc, hes, hl, hic, hded]
  · intro db now req i db' h
    exact precheck_ok_deductions (createPayslip_created_precheck h)

theorem missing_deductions_spec_witness :
    createPayslip ⟨[], 1⟩ "2024-02-01T00:00:00.000Z"
      { sampleRequest with deductions := none } = (.internalError, ⟨[], 1⟩) :=
  missing_deductions_spec.1 _ _ _ [⟨"Basic Salary", .val 30000⟩]
    (by decide) rfl (by decide) (by decide) rfl
